import Mathlib

/-!
Shallow embedding of the student CRUD service (`src/app.py`) of
mongodb-developer/mongodb-with-fastapi, together with proofs about the
specification's claims.

The MongoDB collection is modelled as a list of documents in natural
(insertion) order; `find_one`, `update_one` with `$set`, and `delete_one`
act on the first document matching the `_id` filter, mirroring MongoDB
semantics on a single collection.  Floats are modelled as rationals; the
only float operation the code performs is the comparison `le=4.0`.
-/

namespace MongoFastApi

/-- A JSON field of a request payload: absent from the payload, explicitly
`null`, or a value.  Pydantic v1 distinguishes absent and `null` for required
fields, and conflates them (both become `None`) for `Optional` fields. -/
inductive JField (α : Type) where
  | absent : JField α
  | null : JField α
  | val (v : α) : JField α
deriving DecidableEq, Repr

/-- A stored student document.  `id` is the `_id` key; after
`jsonable_encoder` in `create_student` the ObjectId is encoded as its
24-hex-digit string (via `json_encoders = {ObjectId: str}`), so documents
are stored with a string `_id`. -/
structure StudentDoc where
  id : String
  name : String
  email : String
  course : String
  gpa : ℚ
deriving DecidableEq, Repr

/-- The collection `db["students"]`, in natural order. -/
abbrev Store := List StudentDoc

/-- Models `ObjectId.is_valid` on a Python `str`: a 24-character hex string. -/
def isValidObjectId (s : String) : Bool :=
  s.length == 24 && s.toList.all (fun c => c.isDigit || ("abcdefABCDEF".toList.contains c))

/-- Splitting a character list at every occurrence of a separator; the
result always has one more part than there are separators. -/
def splitOnChar (c : Char) : List Char → List (List Char)
  | [] => [[]]
  | x :: xs =>
      match splitOnChar c xs with
      | [] => [[]]
      | y :: ys => if x = c then [] :: y :: ys else (x :: y) :: ys

/-- Modelled abstraction of the `email-validator` dependency behind
pydantic's `EmailStr` (the exact grammar lives outside this repository):
one `@` separating a non-empty local part from a domain containing a dot
with non-empty labels. -/
def isValidEmail (s : String) : Bool :=
  match splitOnChar '@' s.toList with
  | [loc, domain] =>
      !loc.isEmpty && (splitOnChar '.' domain).length ≥ 2 &&
        (splitOnChar '.' domain).all (fun part => !part.isEmpty)
  | _ => false

/-- A single field-level validation failure, carrying the field name, as
pydantic's `ValidationError` reports them. -/
inductive FieldError where
  | missing (field : String)
  | noneNotAllowed (field : String)
  | invalidObjectId (field : String)
  | invalidEmail (field : String)
  | aboveLimit (field : String)
deriving DecidableEq, Repr

/-- The inbound JSON body of a create (POST) request. -/
structure CreatePayload where
  id : JField String
  name : JField String
  email : JField String
  course : JField String
  gpa : JField ℚ
deriving DecidableEq, Repr

/-- Models `id: PyObjectId = Field(default_factory=PyObjectId, alias="_id")`:
absent uses the freshly generated ObjectId (validators do not run on
defaults); a provided value must pass `ObjectId.is_valid`. -/
def checkId (f : JField String) (freshId : String) : Except FieldError String :=
  match f with
  | .absent => .ok freshId
  | .null => .error (.invalidObjectId "_id")
  | .val s => if isValidObjectId s then .ok s else .error (.invalidObjectId "_id")

/-- A required `str = Field(...)` field of `StudentModel`. -/
def checkRequiredStr (field : String) (f : JField String) : Except FieldError String :=
  match f with
  | .absent => .error (.missing field)
  | .null => .error (.noneNotAllowed field)
  | .val s => .ok s

/-- The required `email: EmailStr = Field(...)` field of `StudentModel`. -/
def checkRequiredEmail (f : JField String) : Except FieldError String :=
  match f with
  | .absent => .error (.missing "email")
  | .null => .error (.noneNotAllowed "email")
  | .val s => if isValidEmail s then .ok s else .error (.invalidEmail "email")

/-- The required `gpa: float = Field(..., le=4.0)` field of `StudentModel`. -/
def checkGpa (f : JField ℚ) : Except FieldError ℚ :=
  match f with
  | .absent => .error (.missing "gpa")
  | .null => .error (.noneNotAllowed "gpa")
  | .val g => if g ≤ 4 then .ok g else .error (.aboveLimit "gpa")

/-- The errors of one field check, for pydantic's collect-all reporting. -/
def errsOf {α : Type} : Except FieldError α → List FieldError
  | .ok _ => []
  | .error e => [e]

/-- Parsing a create body against `StudentModel` (pydantic collects all
field errors into one `ValidationError`). -/
def StudentModel (p : CreatePayload) (freshId : String) :
    Except (List FieldError) StudentDoc :=
  match checkId p.id freshId, checkRequiredStr "name" p.name,
      checkRequiredEmail p.email, checkRequiredStr "course" p.course,
      checkGpa p.gpa with
  | .ok i, .ok n, .ok e, .ok c, .ok g => .ok ⟨i, n, e, c, g⟩
  | ri, rn, re, rc, rg =>
      .error (errsOf ri ++ errsOf rn ++ errsOf re ++ errsOf rc ++ errsOf rg)

/-- The inbound JSON body of an update (PUT) request. -/
structure UpdatePayload where
  name : JField String
  email : JField String
  course : JField String
  gpa : JField ℚ
deriving DecidableEq, Repr

/-- A parsed `UpdateStudentModel`: every field `Optional`, so absent and
`null` both become `None`. -/
structure UpdateStudent where
  name : Option String
  email : Option String
  course : Option String
  gpa : Option ℚ
deriving DecidableEq, Repr

/-- An `Optional[str]` (or `Optional[float]`) field of `UpdateStudentModel`:
no constraint beyond the type. -/
def checkOptional {α : Type} (f : JField α) : Except FieldError (Option α) :=
  match f with
  | .absent => .ok none
  | .null => .ok none
  | .val v => .ok (some v)

/-- The `email: Optional[EmailStr]` field of `UpdateStudentModel`. -/
def checkOptionalEmail (f : JField String) : Except FieldError (Option String) :=
  match f with
  | .absent => .ok none
  | .null => .ok none
  | .val s => if isValidEmail s then .ok (some s) else .error (.invalidEmail "email")

/-- Parsing an update body against `UpdateStudentModel`.  Note: `gpa` is a
plain `Optional[float]`, with no `le=4.0` constraint. -/
def UpdateStudentModel (p : UpdatePayload) :
    Except (List FieldError) UpdateStudent :=
  match checkOptional p.name, checkOptionalEmail p.email,
      checkOptional p.course, checkOptional p.gpa with
  | .ok n, .ok e, .ok c, .ok g => .ok ⟨n, e, c, g⟩
  | rn, re, rc, rg =>
      .error (errsOf rn ++ errsOf re ++ errsOf rc ++ errsOf rg)

/-- Models `db["students"].find_one({"_id": id})`: the first document in natural
order whose `_id` equals the filter value. -/
def findOne (s : Store) (id : String) : Option StudentDoc :=
  s.find? (fun d => d.id == id)

/-- Models `db["students"].find().to_list(1000)`: at most 1000 documents in
natural order. -/
def toList1000 (s : Store) : List StudentDoc :=
  s.take 1000

/-- Applying `{"$set": fields}` to one document: present fields overwrite,
absent fields are untouched. -/
def applySet (d : StudentDoc) (u : UpdateStudent) : StudentDoc :=
  { d with
    name := u.name.getD d.name
    email := u.email.getD d.email
    course := u.course.getD d.course
    gpa := u.gpa.getD d.gpa }

/-- Models `db["students"].update_one({"_id": id}, {"$set": u})`: updates the first
matching document; returns the new collection, `matched_count` and
`modified_count` (0 when the matched document is already equal). -/
def updateOne (s : Store) (id : String) (u : UpdateStudent) :
    Store × ℕ × ℕ :=
  match s with
  | [] => ([], 0, 0)
  | d :: ds =>
      if d.id == id then
        let d' := applySet d u
        (d' :: ds, 1, if d' = d then 0 else 1)
      else
        let r := updateOne ds id u
        (d :: r.1, r.2.1, r.2.2)

/-- Models `db["students"].delete_one({"_id": id})`: removes the first matching
document; returns the new collection and `deleted_count`. -/
def deleteOne (s : Store) (id : String) : Store × ℕ :=
  match s with
  | [] => ([], 0)
  | d :: ds =>
      if d.id == id then (ds, 1)
      else
        let r := deleteOne ds id
        (d :: r.1, r.2)

/-- Models `insert_one`, which honours the unique index on `_id`: a duplicate raises
`DuplicateKeyError`; otherwise the document is appended in natural order. -/
def insertOne (s : Store) (d : StudentDoc) : Except Unit Store :=
  if (findOne s d.id).isSome then .error () else .ok (s ++ [d])

/-- The HTTP outcome of one handler call. -/
inductive Response where
  | created (doc : StudentDoc) : Response
  | ok (doc : StudentDoc) : Response
  | okList (docs : List StudentDoc) : Response
  | noContent : Response
  | notFound (id : String) : Response
  | validationFailed (errs : List FieldError) : Response
  | serverError : Response
deriving DecidableEq, Repr

/-- Models FastAPI's `response_model=StudentModel` re-validation of a
document a handler returns raw (the PUT route and both GET routes; the POST
and DELETE handlers return `JSONResponse`/`HTTPException` objects, which
bypass it).  `name` and `course` are unconstrained strings, so the re-check
is `PyObjectId`, `EmailStr` and the `le=4.0` gpa bound. -/
def responseModelOk (d : StudentDoc) : Bool :=
  isValidObjectId d.id && isValidEmail d.email && decide (d.gpa ≤ 4)

/-- The HTTP outcome of returning document `d` through
`response_model=StudentModel`: 200 with the document when it re-validates,
HTTP 500 otherwise. -/
def validateResponse (d : StudentDoc) : Response :=
  if responseModelOk d then .ok d else .serverError

/-- Handler for `POST /` (`create_student`): FastAPI validates the body against
`StudentModel` (422 on `ValidationError`); the handler inserts the encoded
document and returns the stored document with status 201.  `freshId` is the
ObjectId the `default_factory` would generate. -/
def create_student (p : CreatePayload) (freshId : String) (s : Store) :
    Response × Store :=
  match StudentModel p freshId with
  | .error errs => (.validationFailed errs, s)
  | .ok doc =>
      match insertOne s doc with
      | .error _ => (.serverError, s)
      | .ok s' =>
          match findOne s' doc.id with
          | some created => (.created created, s')
          | none => (.notFound doc.id, s')

/-- Handler for `GET /` (`list_students`): returns the first 1000 documents.
The handler returns the bare list, which FastAPI re-validates against
`response_model=List[StudentModel]` (HTTP 500 when any document fails) and
serializes as a JSON array. -/
def list_students (s : Store) : Response :=
  if (toList1000 s).all responseModelOk then .okList (toList1000 s)
  else .serverError

/-- Handler for `GET /{id}` (`show_student`): `find_one` on the raw path
string, 404 when nothing matches; a found document passes through
`response_model=StudentModel` re-validation. -/
def show_student (id : String) (s : Store) : Response :=
  match findOne s id with
  | some student => validateResponse student
  | none => .notFound id

/-- The fields of `UpdateStudentModel.dict()` remaining after
`{k: v for k, v in student.dict().items() if v is not None}`, counted. -/
def updateSetSize (u : UpdateStudent) : ℕ :=
  (if u.name.isSome then 1 else 0) + (if u.email.isSome then 1 else 0) +
    (if u.course.isSome then 1 else 0) + (if u.gpa.isSome then 1 else 0)

/-- Handler for `PUT /{id}` (`update_student`): body validated against
`UpdateStudentModel`; `None` fields dropped; if at least one field remains,
`update_one` with `$set` runs and, when `modified_count == 1`, the updated
document is returned; otherwise the handler falls through to returning the
existing document if found, else 404.  Every returned document then passes
through `response_model=StudentModel` re-validation (HTTP 500 on failure,
after the write has already happened). -/
def update_student (id : String) (p : UpdatePayload) (s : Store) :
    Response × Store :=
  match UpdateStudentModel p with
  | .error errs => (.validationFailed errs, s)
  | .ok u =>
      if 1 ≤ updateSetSize u then
        let r := updateOne s id u
        if r.2.2 == 1 then
          match findOne r.1 id with
          | some updated => (validateResponse updated, r.1)
          | none =>
              match findOne r.1 id with
              | some existing => (validateResponse existing, r.1)
              | none => (.notFound id, r.1)
        else
          match findOne r.1 id with
          | some existing => (validateResponse existing, r.1)
          | none => (.notFound id, r.1)
      else
        match findOne s id with
        | some existing => (validateResponse existing, s)
        | none => (.notFound id, s)

/-- Handler for `DELETE /{id}` (`delete_student`): `delete_one`, 204 when
`deleted_count == 1`, else 404. -/
def delete_student (id : String) (s : Store) : Response × Store :=
  let r := deleteOne s id
  if r.2 == 1 then (.noContent, r.1) else (.notFound id, r.1)

/-- A JSON value, for stating the serialized shape of response bodies. -/
inductive Json where
  | str (s : String) : Json
  | num (q : ℚ) : Json
  | arr (xs : List Json) : Json
  | obj (fields : List (String × Json)) : Json

/-- One student document serialized through
`response_model=List[StudentModel]`. -/
def encodeStudent (d : StudentDoc) : Json :=
  .obj [("_id", .str d.id), ("name", .str d.name), ("email", .str d.email),
    ("course", .str d.course), ("gpa", .num d.gpa)]

/-- The JSON body of a successful `GET /` response: the handler returns a
bare `list`, so FastAPI serializes a top-level JSON array; no such body
exists when response re-validation fails (HTTP 500). -/
def list_students_body (s : Store) : Option Json :=
  match list_students s with
  | .okList docs => some (.arr (docs.map encodeStudent))
  | _ => none

/-- All stored `_id`s are distinct: the unique index MongoDB maintains on
`_id`, which `insertOne` preserves. -/
def storeWF (s : Store) : Prop :=
  (s.map StudentDoc.id).Nodup

/-- The value a pydantic `Optional` field parses to. -/
def jOpt {α : Type} : JField α → Option α
  | .absent => none
  | .null => none
  | .val v => some v

/-! ### Helper lemmas about the modelled collection operations -/

theorem findOne_eq_none (s : Store) (id : String) :
    findOne s id = none ↔ ∀ d ∈ s, d.id ≠ id := by
  simp [findOne, List.find?_eq_none]

theorem findOne_mem_and_id (s : Store) (id : String) (d : StudentDoc)
    (h : findOne s id = some d) : d ∈ s ∧ d.id = id := by
  refine ⟨List.mem_of_find?_eq_some h, ?_⟩
  have := List.find?_some h
  simpa using this

theorem findOne_append_singleton (s : Store) (d : StudentDoc)
    (h : findOne s d.id = none) : findOne (s ++ [d]) d.id = some d := by
  induction s with
  | nil => simp [findOne]
  | cons a as ih =>
      by_cases hb : (a.id == d.id) = true
      · rw [findOne, List.find?_cons_of_pos (p := fun x : StudentDoc => x.id == d.id) _ hb] at h
        exact absurd h (by simp)
      · rw [findOne, List.find?_cons_of_neg (p := fun x : StudentDoc => x.id == d.id) _ hb] at h
        rw [List.cons_append, findOne,
          List.find?_cons_of_neg (p := fun x : StudentDoc => x.id == d.id) _ hb]
        exact ih h

theorem applySet_id (d : StudentDoc) (u : UpdateStudent) :
    (applySet d u).id = d.id := rfl

theorem updateOne_of_none (s : Store) (id : String) (u : UpdateStudent)
    (h : findOne s id = none) : updateOne s id u = (s, 0, 0) := by
  induction s with
  | nil => simp [updateOne]
  | cons a as ih =>
      by_cases hb : (a.id == id) = true
      · rw [findOne, List.find?_cons_of_pos (p := fun x : StudentDoc => x.id == id) _ hb] at h
        exact absurd h (by simp)
      · rw [findOne, List.find?_cons_of_neg (p := fun x : StudentDoc => x.id == id) _ hb] at h
        simp [updateOne, hb, ih h]

theorem updateOne_of_found (s : Store) (id : String) (u : UpdateStudent)
    (d : StudentDoc) (h : findOne s id = some d) :
    findOne (updateOne s id u).1 id = some (applySet d u) ∧
      (updateOne s id u).2.1 = 1 ∧
      (updateOne s id u).2.2 = (if applySet d u = d then 0 else 1) := by
  induction s with
  | nil => simp [findOne] at h
  | cons a as ih =>
      by_cases hb : (a.id == id) = true
      · rw [findOne, List.find?_cons_of_pos (p := fun x : StudentDoc => x.id == id) _ hb,
          Option.some.injEq] at h
        subst h
        have hb' : ((applySet a u).id == id) = true := by rw [applySet_id]; exact hb
        have hred : updateOne (a :: as) id u
            = (applySet a u :: as, 1, if applySet a u = a then 0 else 1) := by
          simp [updateOne, hb]
        rw [hred]
        refine ⟨?_, rfl, rfl⟩
        rw [findOne, List.find?_cons_of_pos (p := fun x : StudentDoc => x.id == id) _ hb']
      · rw [findOne, List.find?_cons_of_neg (p := fun x : StudentDoc => x.id == id) _ hb] at h
        have H := ih h
        have hred : updateOne (a :: as) id u
            = (a :: (updateOne as id u).1, (updateOne as id u).2.1,
                (updateOne as id u).2.2) := by
          simp [updateOne, hb]
        rw [hred]
        refine ⟨?_, H.2.1, H.2.2⟩
        rw [findOne, List.find?_cons_of_neg (p := fun x : StudentDoc => x.id == id) _ hb]
        exact H.1

theorem deleteOne_of_none (s : Store) (id : String)
    (h : findOne s id = none) : deleteOne s id = (s, 0) := by
  induction s with
  | nil => simp [deleteOne]
  | cons a as ih =>
      by_cases hb : (a.id == id) = true
      · rw [findOne, List.find?_cons_of_pos (p := fun x : StudentDoc => x.id == id) _ hb] at h
        exact absurd h (by simp)
      · rw [findOne, List.find?_cons_of_neg (p := fun x : StudentDoc => x.id == id) _ hb] at h
        simp [deleteOne, hb, ih h]

theorem deleteOne_count_of_found (s : Store) (id : String) (d : StudentDoc)
    (h : findOne s id = some d) : (deleteOne s id).2 = 1 := by
  induction s with
  | nil => simp [findOne] at h
  | cons a as ih =>
      by_cases hb : (a.id == id) = true
      · simp [deleteOne, hb]
      · rw [findOne, List.find?_cons_of_neg (p := fun x : StudentDoc => x.id == id) _ hb] at h
        simp [deleteOne, hb, ih h]

theorem findOne_deleteOne (s : Store) (id : String) (hwf : storeWF s) :
    findOne (deleteOne s id).1 id = none := by
  induction s with
  | nil => simp [deleteOne, findOne]
  | cons a as ih =>
      rw [storeWF, List.map_cons, List.nodup_cons] at hwf
      by_cases hb : (a.id == id) = true
      · have haid : a.id = id := by simpa using hb
        have hred : deleteOne (a :: as) id = (as, 1) := by simp [deleteOne, hb]
        rw [hred, findOne_eq_none]
        intro d hd hdid
        exact hwf.1 (haid ▸ hdid ▸ List.mem_map_of_mem StudentDoc.id hd)
      · have hred : deleteOne (a :: as) id
            = (a :: (deleteOne as id).1, (deleteOne as id).2) := by
          simp [deleteOne, hb]
        rw [hred, findOne, List.find?_cons_of_neg (p := fun x : StudentDoc => x.id == id) _ hb]
        exact ih hwf.2

/-! ### Lemmas about payload parsing -/

/-- A required pydantic field rejects both an absent and a `null` value. -/
def requiredMissing {α : Type} : JField α → Bool
  | .absent => true
  | .null => true
  | .val _ => false

theorem checkOptional_eq {α : Type} (f : JField α) :
    checkOptional f = .ok (jOpt f) := by
  cases f <;> rfl

theorem checkOptionalEmail_ok (f : JField String) (o : Option String)
    (h : checkOptionalEmail f = .ok o) : o = jOpt f := by
  cases f with
  | absent => cases h; rfl
  | null => cases h; rfl
  | val e =>
      rw [checkOptionalEmail] at h
      by_cases hv : isValidEmail e = true
      · rw [if_pos hv] at h
        cases h; rfl
      · rw [if_neg hv] at h
        cases h

theorem UpdateStudentModel_ok (p : UpdatePayload) (u : UpdateStudent)
    (h : UpdateStudentModel p = .ok u) :
    u.name = jOpt p.name ∧ u.email = jOpt p.email ∧
      u.course = jOpt p.course ∧ u.gpa = jOpt p.gpa := by
  rw [UpdateStudentModel, checkOptional_eq, checkOptional_eq, checkOptional_eq] at h
  cases he : checkOptionalEmail p.email with
  | ok eo =>
      rw [he] at h
      cases h
      exact ⟨rfl, checkOptionalEmail_ok p.email eo he, rfl, rfl⟩
  | error e =>
      rw [he] at h
      cases h

theorem UpdateStudentModel_ok_of (p : UpdatePayload)
    (hem : ∀ e, p.email = .val e → isValidEmail e = true) :
    UpdateStudentModel p = .ok ⟨jOpt p.name, jOpt p.email, jOpt p.course, jOpt p.gpa⟩ := by
  rw [UpdateStudentModel, checkOptional_eq, checkOptional_eq, checkOptional_eq]
  cases hpe : p.email with
  | absent => rfl
  | null => rfl
  | val e =>
      have hv := hem e hpe
      rw [checkOptionalEmail, if_pos hv]
      rfl

/-- The list of field errors pydantic would report for a create body. -/
def concatErrs (p : CreatePayload) (freshId : String) : List FieldError :=
  errsOf (checkId p.id freshId) ++ errsOf (checkRequiredStr "name" p.name) ++
    errsOf (checkRequiredEmail p.email) ++ errsOf (checkRequiredStr "course" p.course) ++
    errsOf (checkGpa p.gpa)

theorem StudentModel_error_shape (p : CreatePayload) (fid : String)
    (h : concatErrs p fid ≠ []) : StudentModel p fid = .error (concatErrs p fid) := by
  rw [concatErrs] at h ⊢
  rcases h1 : checkId p.id fid with e1 | v1 <;>
    rcases h2 : checkRequiredStr "name" p.name with e2 | v2 <;>
    rcases h3 : checkRequiredEmail p.email with e3 | v3 <;>
    rcases h4 : checkRequiredStr "course" p.course with e4 | v4 <;>
    rcases h5 : checkGpa p.gpa with e5 | v5 <;>
    rw [StudentModel, h1, h2, h3, h4, h5] <;>
    simp_all [errsOf]

theorem StudentModel_ok_absent_id (p : CreatePayload) (fid nm em co : String) (g : ℚ)
    (hid : p.id = .absent) (hn : p.name = .val nm) (he : p.email = .val em)
    (hc : p.course = .val co) (hg : p.gpa = .val g)
    (hve : isValidEmail em = true) (hg4 : g ≤ 4) :
    StudentModel p fid = .ok ⟨fid, nm, em, co, g⟩ := by
  rw [StudentModel, hid, hn, he, hc, hg, checkRequiredEmail, checkGpa]
  rw [if_pos hve, if_pos hg4]
  rfl

theorem StudentModel_ok_val_id (p : CreatePayload) (cid fid nm em co : String) (g : ℚ)
    (hid : p.id = .val cid) (hcv : isValidObjectId cid = true)
    (hn : p.name = .val nm) (he : p.email = .val em)
    (hc : p.course = .val co) (hg : p.gpa = .val g)
    (hve : isValidEmail em = true) (hg4 : g ≤ 4) :
    StudentModel p fid = .ok ⟨cid, nm, em, co, g⟩ := by
  rw [StudentModel, hid, hn, he, hc, hg, checkId, checkRequiredEmail, checkGpa]
  rw [if_pos hcv, if_pos hve, if_pos hg4]
  rfl

/-- The create body is rejected by `StudentModel`: a required field is
missing (absent or `null`), the email is malformed, or `gpa` exceeds 4.0. -/
def createBad (p : CreatePayload) : Prop :=
  requiredMissing p.name = true ∨ requiredMissing p.email = true ∨
    requiredMissing p.course = true ∨ requiredMissing p.gpa = true ∨
    (∃ e, p.email = .val e ∧ isValidEmail e = false) ∨
    (∃ g, p.gpa = .val g ∧ 4 < g)

theorem concatErrs_ne_nil_of_bad (p : CreatePayload) (fid : String)
    (h : createBad p) : concatErrs p fid ≠ [] := by
  intro hc
  rw [concatErrs] at hc
  simp only [List.append_eq_nil] at hc
  obtain ⟨⟨⟨⟨-, hcN⟩, hcE⟩, hcC⟩, hcG⟩ := hc
  rcases h with h | h | h | h | ⟨e, he, hv⟩ | ⟨g, hg, h4⟩
  · cases hpn : p.name with
    | absent => rw [hpn] at hcN; simp [checkRequiredStr, errsOf] at hcN
    | null => rw [hpn] at hcN; simp [checkRequiredStr, errsOf] at hcN
    | val v => rw [hpn] at h; simp [requiredMissing] at h
  · cases hpe : p.email with
    | absent => rw [hpe] at hcE; simp [checkRequiredEmail, errsOf] at hcE
    | null => rw [hpe] at hcE; simp [checkRequiredEmail, errsOf] at hcE
    | val v => rw [hpe] at h; simp [requiredMissing] at h
  · cases hpc : p.course with
    | absent => rw [hpc] at hcC; simp [checkRequiredStr, errsOf] at hcC
    | null => rw [hpc] at hcC; simp [checkRequiredStr, errsOf] at hcC
    | val v => rw [hpc] at h; simp [requiredMissing] at h
  · cases hpg : p.gpa with
    | absent => rw [hpg] at hcG; simp [checkGpa, errsOf] at hcG
    | null => rw [hpg] at hcG; simp [checkGpa, errsOf] at hcG
    | val v => rw [hpg] at h; simp [requiredMissing] at h
  · rw [he] at hcE
    simp [checkRequiredEmail, hv, errsOf] at hcE
  · rw [hg] at hcG
    simp [checkGpa, errsOf, not_le.mpr h4] at hcG

/-! ### Reduction lemmas for the handlers -/

theorem create_student_of_error (p : CreatePayload) (fid : String) (s : Store)
    (errs : List FieldError) (hm : StudentModel p fid = .error errs) :
    create_student p fid s = (.validationFailed errs, s) := by
  rw [create_student, hm]

theorem create_student_of_ok (p : CreatePayload) (fid : String) (s : Store)
    (doc : StudentDoc) (hm : StudentModel p fid = .ok doc)
    (hfresh : findOne s doc.id = none) :
    create_student p fid s = (.created doc, s ++ [doc]) := by
  rw [create_student, hm]
  dsimp only
  have hins : insertOne s doc = .ok (s ++ [doc]) := by
    rw [insertOne, hfresh]
    rfl
  rw [hins]
  dsimp only
  rw [findOne_append_singleton s doc hfresh]

theorem update_student_found (s : Store) (id : String) (p : UpdatePayload)
    (u : UpdateStudent) (d : StudentDoc) (hm : UpdateStudentModel p = .ok u)
    (hsize : 1 ≤ updateSetSize u) (hd : findOne s id = some d) :
    update_student id p s
      = (validateResponse (applySet d u), (updateOne s id u).1) := by
  have hup := updateOne_of_found s id u d hd
  rw [update_student, hm]
  dsimp only
  rw [if_pos hsize, hup.2.2]
  by_cases hEq : applySet d u = d
  · rw [if_pos hEq]
    simp [hup.1]
  · rw [if_neg hEq]
    simp [hup.1]

theorem update_student_not_found (s : Store) (id : String) (p : UpdatePayload)
    (u : UpdateStudent) (hm : UpdateStudentModel p = .ok u)
    (hnone : findOne s id = none) :
    update_student id p s = (Response.notFound id, s) := by
  rw [update_student, hm]
  dsimp only
  by_cases hsize : 1 ≤ updateSetSize u
  · rw [if_pos hsize, updateOne_of_none s id u hnone]
    simp [hnone]
  · rw [if_neg hsize, hnone]

theorem update_student_empty (s : Store) (id : String) (p : UpdatePayload)
    (u : UpdateStudent) (hm : UpdateStudentModel p = .ok u)
    (hsize : updateSetSize u = 0) (d : StudentDoc) (hd : findOne s id = some d) :
    update_student id p s = (validateResponse d, s) := by
  rw [update_student, hm]
  dsimp only
  have hlt : ¬ 1 ≤ updateSetSize u := by omega
  rw [if_neg hlt, hd]

theorem updateSetSize_pos_of_gpa (u : UpdateStudent) (h : u.gpa.isSome = true) :
    1 ≤ updateSetSize u := by
  rw [updateSetSize, if_pos h]
  omega

theorem updateSetSize_pos_of_email (u : UpdateStudent) (h : u.email.isSome = true) :
    1 ≤ updateSetSize u := by
  rw [updateSetSize, if_pos h]
  omega

/-! ### Concrete sample data -/

/-- A syntactically valid ObjectId string. -/
def oidA : String := "aaaaaaaaaaaaaaaaaaaaaaaa"

/-- Another syntactically valid ObjectId string, distinct from `oidA`. -/
def oidB : String := "0123456789abcdef01234567"

/-- A stored student document, as inserted by the repository's own test. -/
def sampleDoc : StudentDoc :=
  ⟨oidA, "Jane Doe", "jdoe@example.com", "Test Course", 3⟩

/-- The create body used by the repository's own test. -/
def samplePayload : CreatePayload :=
  ⟨.absent, .val "Jane Doe", .val "jdoe@example.com", .val "Test Course", .val 3⟩

/-- An update body carrying only `gpa`, with a value above 4.0. -/
def gpa5Payload : UpdatePayload := ⟨.absent, .absent, .absent, .val 5⟩

/-- An update body carrying only `email`, as in the repository's own test. -/
def emailOnlyPayload : UpdatePayload :=
  ⟨.absent, .val "updated_email@example.com", .absent, .absent⟩

/-- A create body whose `name` and `course` are empty strings. -/
def emptyNamePayload : CreatePayload :=
  ⟨.absent, .val "", .val "jdoe@example.com", .val "", .val 3⟩

/-- A create body that supplies its own `_id`. -/
def clientIdPayload : CreatePayload :=
  ⟨.val oidB, .val "Jane Doe", .val "jdoe@example.com", .val "Test Course", .val 3⟩

/-- A second stored student document, distinct from `sampleDoc`. -/
def sampleDoc2 : StudentDoc :=
  ⟨oidB, "John Roe", "jroe@example.com", "Other Course", 2⟩

/-! ### The claims -/

/-- C1 counterexample: the claim says an update payload with `gpa > 4.0`
fails with `ValidationError` and leaves the stored record unchanged.  On the
code, updating the sample record with `{"gpa": 5}` passes request validation
(`UpdateStudentModel.gpa` has no `le=4.0`), overwrites the stored gpa, and
only then fails `response_model=StudentModel` re-validation: the endpoint
answers HTTP 500 — not a `ValidationError` — with the write persisted. -/
theorem C1_counterexample :
    (update_student oidA gpa5Payload [sampleDoc]).1 = Response.serverError ∧
      (update_student oidA gpa5Payload [sampleDoc]).2
        = [⟨oidA, "Jane Doe", "jdoe@example.com", "Test Course", 5⟩] ∧
      sampleDoc.gpa = 3 :=
  ⟨rfl, rfl, rfl⟩

/-- C1 amended: on update, `email` (when present) must still be well-formed,
but the `gpa ≤ 4.0` constraint is not enforced on the request: every update
payload whose `gpa` field is present and greater than 4.0 passes validation
and, when a record with the requested id exists, the update is applied —
the stored record's gpa becomes the out-of-range value — after which the
endpoint fails `response_model=StudentModel` re-validation and answers
HTTP 500 instead of returning the record. -/
theorem C1_amended (s : Store) (id : String) (p : UpdatePayload) (g : ℚ)
    (d : StudentDoc) (hg : p.gpa = .val g) (h4 : 4 < g)
    (hem : ∀ e, p.email = .val e → isValidEmail e = true)
    (hd : findOne s id = some d) :
    ∃ u, UpdateStudentModel p = .ok u ∧ u.gpa = some g ∧
      findOne (update_student id p s).2 id = some (applySet d u) ∧
      (applySet d u).gpa = g ∧
      (update_student id p s).1 = Response.serverError := by
  have hm := UpdateStudentModel_ok_of p hem
  have hgpa : (⟨jOpt p.name, jOpt p.email, jOpt p.course, jOpt p.gpa⟩ :
      UpdateStudent).gpa = some g := by simp [jOpt, hg]
  have hsize := updateSetSize_pos_of_gpa _ (by rw [hgpa]; rfl)
  have hkey := update_student_found s id p _ d hm hsize hd
  have hgval : (applySet d
      ⟨jOpt p.name, jOpt p.email, jOpt p.course, jOpt p.gpa⟩).gpa = g := by
    simp [applySet, hg, jOpt]
  have hro : responseModelOk (applySet d
      ⟨jOpt p.name, jOpt p.email, jOpt p.course, jOpt p.gpa⟩) = false := by
    rw [responseModelOk, hgval, decide_eq_false (not_le.mpr h4)]
    simp
  refine ⟨_, hm, hgpa, ?_, hgval, ?_⟩
  · rw [hkey]
    exact (updateOne_of_found s id _ d hd).1
  · rw [hkey]
    show validateResponse _ = Response.serverError
    rw [validateResponse, hro]
    rfl

/-- C1 amended, witness: updating the sample record with `{"gpa": 5}`. -/
theorem C1_amended_witness :
    ∃ u, UpdateStudentModel gpa5Payload = .ok u ∧ u.gpa = some 5 ∧
      findOne (update_student oidA gpa5Payload [sampleDoc]).2 oidA
        = some (applySet sampleDoc u) ∧
      (applySet sampleDoc u).gpa = 5 ∧
      (update_student oidA gpa5Payload [sampleDoc]).1 = Response.serverError :=
  C1_amended [sampleDoc] oidA gpa5Payload 5 sampleDoc rfl (by norm_num)
    (fun e h => JField.noConfusion h) rfl

/-- C2: at a store holding the sample record, the List handler returns the
records (capped at 1000) but serializes them as a bare top-level JSON array —
not as a `{"students": [...]}` container object, contradicting the claim and
the repository's own test. -/
theorem C2_list_returns_bare_array :
    list_students [sampleDoc] = Response.okList [sampleDoc] ∧
      list_students_body [sampleDoc]
        = some (Json.arr [Json.obj [("_id", Json.str oidA), ("name", Json.str "Jane Doe"),
            ("email", Json.str "jdoe@example.com"), ("course", Json.str "Test Course"),
            ("gpa", Json.num 3)]]) :=
  ⟨rfl, rfl⟩

/-- C8 counterexample: the claim says a create payload whose `name` or
`course` is the empty string fails with `ValidationError`.  On the code,
`StudentModel` accepts empty strings (plain `str = Field(...)`, no
non-emptiness constraint) and the Create handler inserts the record. -/
theorem C8_counterexample :
    StudentModel emptyNamePayload oidB
        = .ok ⟨oidB, "", "jdoe@example.com", "", 3⟩ ∧
      create_student emptyNamePayload oidB []
        = (Response.created ⟨oidB, "", "jdoe@example.com", "", 3⟩,
            [⟨oidB, "", "jdoe@example.com", "", 3⟩]) :=
  ⟨rfl, rfl⟩

/-- C8 amended: `name` and `course` are required on create, but only their
presence and type are validated; any string values — including empty
strings — are accepted, and the record is inserted. -/
theorem C8_amended (p : CreatePayload) (nm em co : String) (g : ℚ)
    (fid : String) (s : Store) (hid : p.id = .absent) (hn : p.name = .val nm)
    (hc : p.course = .val co) (he : p.email = .val em)
    (hve : isValidEmail em = true) (hg : p.gpa = .val g) (hg4 : g ≤ 4)
    (hfresh : findOne s fid = none) :
    create_student p fid s
      = (Response.created ⟨fid, nm, em, co, g⟩, s ++ [⟨fid, nm, em, co, g⟩]) :=
  create_student_of_ok p fid s _
    (StudentModel_ok_absent_id p fid nm em co g hid hn he hc hg hve hg4) hfresh

/-- C8 amended, witness: creating a record with empty `name` and `course`
into a store already holding the sample record. -/
theorem C8_amended_witness :
    create_student emptyNamePayload oidB [sampleDoc]
      = (Response.created ⟨oidB, "", "jdoe@example.com", "", 3⟩,
          [sampleDoc, ⟨oidB, "", "jdoe@example.com", "", 3⟩]) :=
  C8_amended emptyNamePayload "" "jdoe@example.com" "" 3 oidB [sampleDoc]
    rfl rfl rfl rfl (by decide) rfl (by norm_num) (by decide)

/-- C9: a malformed id (not a valid ObjectId string) can never match a
well-formed store, whose `_id`s are all valid ObjectId strings, so the
Get-by-id handler answers 404 `NotFoundError` — a handled response, the same
outcome as for a missing record — rather than crashing. -/
theorem C9_malformed_id (s : Store) (id : String)
    (hbad : isValidObjectId id = false)
    (hwf : ∀ d ∈ s, isValidObjectId d.id = true) :
    show_student id s = Response.notFound id := by
  have hnone : findOne s id = none := by
    rw [findOne_eq_none]
    intro d hd hdid
    have hv := hwf d hd
    rw [hdid, hbad] at hv
    cases hv
  rw [show_student, hnone]

/-- C9 witness: fetching the malformed id string "students" from a store
holding the sample record. -/
theorem C9_malformed_id_witness :
    show_student "students" [sampleDoc] = Response.notFound "students" :=
  C9_malformed_id [sampleDoc] "students" (by decide) (by decide)

/-- C3: creating a record from a valid payload (name, email, course, gpa; no
id) and then fetching it by the id the create returned yields a record equal
to the payload in name, email, course and gpa, whose id is the freshly
generated ObjectId (hence a valid ObjectId string, so it also passes the GET
route's `response_model` re-validation). -/
theorem C3_create_then_fetch (p : CreatePayload) (nm em co : String) (g : ℚ)
    (fid : String) (s : Store) (hid : p.id = .absent) (hn : p.name = .val nm)
    (he : p.email = .val em) (hc : p.course = .val co) (hg : p.gpa = .val g)
    (hve : isValidEmail em = true) (hg4 : g ≤ 4)
    (hfid : isValidObjectId fid = true)
    (hfresh : findOne s fid = none) :
    ∃ doc s', create_student p fid s = (Response.created doc, s') ∧
      doc.name = nm ∧ doc.email = em ∧ doc.course = co ∧ doc.gpa = g ∧
      doc.id = fid ∧ show_student doc.id s' = Response.ok doc := by
  have hm := StudentModel_ok_absent_id p fid nm em co g hid hn he hc hg hve hg4
  have hcr := create_student_of_ok p fid s _ hm hfresh
  refine ⟨⟨fid, nm, em, co, g⟩, s ++ [⟨fid, nm, em, co, g⟩], hcr, rfl, rfl, rfl, rfl, rfl, ?_⟩
  rw [show_student, findOne_append_singleton s _ hfresh]
  simp [validateResponse, responseModelOk, hfid, hve, hg4]

/-- C3 witness: the repository test's document created into an empty store,
then fetched back. -/
theorem C3_create_then_fetch_witness :
    ∃ doc s', create_student samplePayload oidB [] = (Response.created doc, s') ∧
      doc.name = "Jane Doe" ∧ doc.email = "jdoe@example.com" ∧
      doc.course = "Test Course" ∧ doc.gpa = 3 ∧ doc.id = oidB ∧
      show_student doc.id s' = Response.ok doc :=
  C3_create_then_fetch samplePayload "Jane Doe" "jdoe@example.com" "Test Course"
    3 oidB [] rfl rfl rfl rfl rfl (by decide) (by norm_num) (by decide) rfl

/-- C10: the Create handler honours a client-supplied `_id`: when the payload
carries a valid ObjectId string, the stored and returned record uses it; when
the payload omits `_id`, the freshly generated ObjectId is used instead. -/
theorem C10_client_supplied_id (p : CreatePayload) (cid fid nm em co : String)
    (g : ℚ) (s : Store) (hn : p.name = .val nm) (he : p.email = .val em)
    (hc : p.course = .val co) (hg : p.gpa = .val g)
    (hve : isValidEmail em = true) (hg4 : g ≤ 4) :
    (p.id = .val cid → isValidObjectId cid = true → findOne s cid = none →
      create_student p fid s
        = (Response.created ⟨cid, nm, em, co, g⟩, s ++ [⟨cid, nm, em, co, g⟩])) ∧
    (p.id = .absent → findOne s fid = none →
      create_student p fid s
        = (Response.created ⟨fid, nm, em, co, g⟩, s ++ [⟨fid, nm, em, co, g⟩])) := by
  constructor
  · intro hid hcv hfresh
    exact create_student_of_ok p fid s _
      (StudentModel_ok_val_id p cid fid nm em co g hid hcv hn he hc hg hve hg4) hfresh
  · intro hid hfresh
    exact create_student_of_ok p fid s _
      (StudentModel_ok_absent_id p fid nm em co g hid hn he hc hg hve hg4) hfresh

/-- C10 witness: a create body supplying `_id = oidB` while the generator
would have produced `oidA`; the stored record carries `oidB`. -/
theorem C10_client_supplied_id_witness :
    (clientIdPayload.id = .val oidB → isValidObjectId oidB = true →
      findOne [] oidB = none →
      create_student clientIdPayload oidA []
        = (Response.created ⟨oidB, "Jane Doe", "jdoe@example.com", "Test Course", 3⟩,
            [⟨oidB, "Jane Doe", "jdoe@example.com", "Test Course", 3⟩])) ∧
    (clientIdPayload.id = .absent → findOne [] oidA = none →
      create_student clientIdPayload oidA []
        = (Response.created ⟨oidA, "Jane Doe", "jdoe@example.com", "Test Course", 3⟩,
            [⟨oidA, "Jane Doe", "jdoe@example.com", "Test Course", 3⟩])) :=
  C10_client_supplied_id clientIdPayload oidB oidA "Jane Doe" "jdoe@example.com"
    "Test Course" 3 [] rfl rfl rfl rfl (by decide) (by norm_num)

/-- C5: a create body missing a required field (absent or `null`), or with a
malformed email, or with `gpa > 4.0`, is rejected with a non-empty
`ValidationError` and nothing is inserted; any other body (with no
client-supplied `_id`) is inserted as exactly one document, and the full
stored record — with the generated id — is returned with the 201 created
status. -/
theorem C5_create_validation (p : CreatePayload) (fid : String) (s : Store)
    (hid : p.id = .absent) (hfresh : findOne s fid = none) :
    (createBad p →
      ∃ errs, errs ≠ [] ∧ create_student p fid s = (.validationFailed errs, s)) ∧
    (¬ createBad p →
      ∃ doc, create_student p fid s = (Response.created doc, s ++ [doc]) ∧
        doc.id = fid ∧ p.name = .val doc.name ∧ p.email = .val doc.email ∧
        p.course = .val doc.course ∧ p.gpa = .val doc.gpa) := by
  constructor
  · intro hbad
    have hne := concatErrs_ne_nil_of_bad p fid hbad
    exact ⟨concatErrs p fid, hne,
      create_student_of_error p fid s _ (StudentModel_error_shape p fid hne)⟩
  · intro hgood
    rw [createBad] at hgood
    push_neg at hgood
    obtain ⟨hbn, hbe, hbc, hbg, hev, hgv⟩ := hgood
    obtain ⟨nm, hn⟩ : ∃ v, p.name = .val v := by
      cases hpn : p.name
      · rw [hpn] at hbn; simp [requiredMissing] at hbn
      · rw [hpn] at hbn; simp [requiredMissing] at hbn
      · exact ⟨_, rfl⟩
    obtain ⟨em, he⟩ : ∃ v, p.email = .val v := by
      cases hpe : p.email
      · rw [hpe] at hbe; simp [requiredMissing] at hbe
      · rw [hpe] at hbe; simp [requiredMissing] at hbe
      · exact ⟨_, rfl⟩
    obtain ⟨co, hc⟩ : ∃ v, p.course = .val v := by
      cases hpc : p.course
      · rw [hpc] at hbc; simp [requiredMissing] at hbc
      · rw [hpc] at hbc; simp [requiredMissing] at hbc
      · exact ⟨_, rfl⟩
    obtain ⟨g, hg⟩ : ∃ v, p.gpa = .val v := by
      cases hpg : p.gpa
      · rw [hpg] at hbg; simp [requiredMissing] at hbg
      · rw [hpg] at hbg; simp [requiredMissing] at hbg
      · exact ⟨_, rfl⟩
    have hve : isValidEmail em = true := by
      have := hev em he
      cases hb : isValidEmail em
      · exact absurd hb this
      · rfl
    have hg4 : g ≤ 4 := hgv g hg
    exact ⟨⟨fid, nm, em, co, g⟩,
      create_student_of_ok p fid s _
        (StudentModel_ok_absent_id p fid nm em co g hid hn he hc hg hve hg4) hfresh,
      rfl, hn, he, hc, hg⟩

/-- C5 witness: the repository test's valid create body on an empty store:
the bad branch is vacuous and the good branch inserts exactly one document. -/
theorem C5_create_validation_witness :
    (createBad samplePayload →
      ∃ errs, errs ≠ [] ∧
        create_student samplePayload oidB [] = (.validationFailed errs, [])) ∧
    (¬ createBad samplePayload →
      ∃ doc, create_student samplePayload oidB []
          = (Response.created doc, [] ++ [doc]) ∧
        doc.id = oidB ∧ samplePayload.name = .val doc.name ∧
        samplePayload.email = .val doc.email ∧
        samplePayload.course = .val doc.course ∧
        samplePayload.gpa = .val doc.gpa) :=
  C5_create_validation samplePayload oidB [] rfl rfl

/-- C4: for an existing record and any accepted update body, payload fields
that are absent or explicitly `null` are ignored — never cleared or set to
null — and the record found after the update keeps its id and the previous
value of every such field; e.g. updating only `email` leaves `name`,
`course` and `gpa` unchanged. -/
theorem C4_partial_update_frame (s : Store) (id : String) (p : UpdatePayload)
    (u : UpdateStudent) (d : StudentDoc) (hm : UpdateStudentModel p = .ok u)
    (hd : findOne s id = some d) :
    ∃ d', findOne (update_student id p s).2 id = some d' ∧ d'.id = d.id ∧
      ((p.name = .absent ∨ p.name = .null) → d'.name = d.name) ∧
      ((p.email = .absent ∨ p.email = .null) → d'.email = d.email) ∧
      ((p.course = .absent ∨ p.course = .null) → d'.course = d.course) ∧
      ((p.gpa = .absent ∨ p.gpa = .null) → d'.gpa = d.gpa) := by
  have hu := UpdateStudentModel_ok p u hm
  rcases Nat.eq_zero_or_pos (updateSetSize u) with hz | hpos
  · have hkey := update_student_empty s id p u hm hz d hd
    refine ⟨d, ?_, rfl, fun _ => rfl, fun _ => rfl, fun _ => rfl, fun _ => rfl⟩
    rw [hkey]
    exact hd
  · have hkey := update_student_found s id p u d hm hpos hd
    refine ⟨applySet d u, ?_, applySet_id d u, ?_, ?_, ?_, ?_⟩
    · rw [hkey]
      exact (updateOne_of_found s id u d hd).1
    · rintro (h | h) <;> simp [applySet, hu.1, h, jOpt]
    · rintro (h | h) <;> simp [applySet, hu.2.1, h, jOpt]
    · rintro (h | h) <;> simp [applySet, hu.2.2.1, h, jOpt]
    · rintro (h | h) <;> simp [applySet, hu.2.2.2, h, jOpt]

/-- C4 witness: updating only the email of the sample record: the stored
record keeps its name, course and gpa. -/
theorem C4_partial_update_frame_witness :
    ∃ d', findOne (update_student oidA emailOnlyPayload [sampleDoc]).2 oidA
        = some d' ∧ d'.id = sampleDoc.id ∧
      ((emailOnlyPayload.name = .absent ∨ emailOnlyPayload.name = .null) →
        d'.name = sampleDoc.name) ∧
      ((emailOnlyPayload.email = .absent ∨ emailOnlyPayload.email = .null) →
        d'.email = sampleDoc.email) ∧
      ((emailOnlyPayload.course = .absent ∨ emailOnlyPayload.course = .null) →
        d'.course = sampleDoc.course) ∧
      ((emailOnlyPayload.gpa = .absent ∨ emailOnlyPayload.gpa = .null) →
        d'.gpa = sampleDoc.gpa) :=
  C4_partial_update_frame [sampleDoc] oidA emailOnlyPayload
    ⟨none, some "updated_email@example.com", none, none⟩ sampleDoc rfl rfl

/-- C6: the Delete handler answers 404 `NotFoundError` exactly when zero
documents were deleted (equivalently, when no record matches the id), and
404 otherwise means a 204 no-content response; after a delete of id X a Get
of X answers 404 and a second Delete of X answers 404. -/
theorem C6_delete_semantics (s : Store) (id : String) (hwf : storeWF s) :
    ((delete_student id s).1 = Response.notFound id ↔ (deleteOne s id).2 = 0) ∧
    ((deleteOne s id).2 = 0 ↔ findOne s id = none) ∧
    ((findOne s id).isSome = true → (delete_student id s).1 = Response.noContent) ∧
    show_student id (delete_student id s).2 = Response.notFound id ∧
    (delete_student id (delete_student id s).2).1 = Response.notFound id := by
  cases hf : findOne s id with
  | none =>
      have hdel := deleteOne_of_none s id hf
      have hkey : delete_student id s = (Response.notFound id, s) := by
        rw [delete_student, hdel]
        simp
      refine ⟨?_, ?_, ?_, ?_, ?_⟩
      · rw [hkey, hdel]
        simp
      · rw [hdel]
        simp [hf]
      · intro h
        simp at h
      · rw [hkey]
        rw [show_student, hf]
      · rw [hkey]
        rw [hkey]
  | some d =>
      have hcnt := deleteOne_count_of_found s id d hf
      have hkey : delete_student id s = (Response.noContent, (deleteOne s id).1) := by
        rw [delete_student]
        simp [hcnt]
      have hnone : findOne (deleteOne s id).1 id = none := findOne_deleteOne s id hwf
      refine ⟨?_, ?_, ?_, ?_, ?_⟩
      · rw [hkey, hcnt]
        simp
      · rw [hcnt]
        simp
      · intro _
        rw [hkey]
      · rw [hkey]
        rw [show_student, hnone]
      · rw [hkey]
        rw [delete_student, deleteOne_of_none _ _ hnone]
        simp

/-- C6 witness: deleting the sample record from a one-record store: 204 the
first time, 404 on a following Get and on a second Delete. -/
theorem C6_delete_semantics_witness :
    ((delete_student oidA [sampleDoc]).1 = Response.notFound oidA ↔
      (deleteOne [sampleDoc] oidA).2 = 0) ∧
    ((deleteOne [sampleDoc] oidA).2 = 0 ↔ findOne [sampleDoc] oidA = none) ∧
    ((findOne [sampleDoc] oidA).isSome = true →
      (delete_student oidA [sampleDoc]).1 = Response.noContent) ∧
    show_student oidA (delete_student oidA [sampleDoc]).2
      = Response.notFound oidA ∧
    (delete_student oidA (delete_student oidA [sampleDoc]).2).1
      = Response.notFound oidA :=
  C6_delete_semantics [sampleDoc] oidA (by simp [storeWF])

/-- C7 counterexample: the claim says that with a non-empty update set and a
matching record, the applied update is returned as the post-update record.
Updating the second sample record with `{"gpa": 5}` has a non-empty update
set and a matching record, and the `$set` is applied to the store, but the
endpoint answers HTTP 500 — the post-update document fails the
`response_model=StudentModel` re-validation (`le=4.0`) — instead of
returning the post-update record. -/
theorem C7_counterexample :
    UpdateStudentModel gpa5Payload = .ok ⟨none, none, none, some 5⟩ ∧
      1 ≤ updateSetSize ⟨none, none, none, some 5⟩ ∧
      findOne [sampleDoc2] oidB = some sampleDoc2 ∧
      (update_student oidB gpa5Payload [sampleDoc2]).1 = Response.serverError ∧
      (update_student oidB gpa5Payload [sampleDoc2]).2
        = [⟨oidB, "John Roe", "jroe@example.com", "Other Course", 5⟩] :=
  ⟨rfl, by decide, rfl, rfl, rfl⟩

/-- C7 amended: when the update set is empty after dropping absent/null
fields, the handler returns the existing record unchanged (200) when a
record with the id exists and it passes `response_model` re-validation, and
404 when no record matches; when the update set is non-empty and a record
matches, the `$set` is applied, and the response is the post-update record
(200) exactly when that record passes `response_model=StudentModel`
re-validation — otherwise HTTP 500, after the write; when no record matches
the id, 404. -/
theorem C7_amended (s : Store) (id : String) (p : UpdatePayload)
    (u : UpdateStudent) (hm : UpdateStudentModel p = .ok u) :
    (updateSetSize u = 0 →
      (∀ d, findOne s id = some d → responseModelOk d = true →
        update_student id p s = (Response.ok d, s)) ∧
      (findOne s id = none → update_student id p s = (Response.notFound id, s))) ∧
    (1 ≤ updateSetSize u →
      (∀ d, findOne s id = some d →
        findOne (update_student id p s).2 id = some (applySet d u) ∧
        (responseModelOk (applySet d u) = true →
          (update_student id p s).1 = Response.ok (applySet d u)) ∧
        (responseModelOk (applySet d u) = false →
          (update_student id p s).1 = Response.serverError)) ∧
      (findOne s id = none → update_student id p s = (Response.notFound id, s))) := by
  constructor
  · intro hz
    refine ⟨fun d hd hro => ?_, fun hn => update_student_not_found s id p u hm hn⟩
    have hkey := update_student_empty s id p u hm hz d hd
    rw [hkey, validateResponse, hro]
    rfl
  · intro hpos
    refine ⟨fun d hd => ?_, fun hn => update_student_not_found s id p u hm hn⟩
    have hkey := update_student_found s id p u d hm hpos hd
    refine ⟨?_, ?_, ?_⟩
    · rw [hkey]
      exact (updateOne_of_found s id u d hd).1
    · intro hro
      rw [hkey]
      show validateResponse _ = _
      rw [validateResponse, hro]
      rfl
    · intro hro
      rw [hkey]
      show validateResponse _ = _
      rw [validateResponse, hro]
      rfl

/-- C7 amended, witness: the email-only update body against a one-record
store holding the sample record. -/
theorem C7_amended_witness :
    (updateSetSize ⟨none, some "updated_email@example.com", none, none⟩ = 0 →
      (∀ d, findOne [sampleDoc] oidA = some d → responseModelOk d = true →
        update_student oidA emailOnlyPayload [sampleDoc] = (Response.ok d, [sampleDoc])) ∧
      (findOne [sampleDoc] oidA = none →
        update_student oidA emailOnlyPayload [sampleDoc]
          = (Response.notFound oidA, [sampleDoc]))) ∧
    (1 ≤ updateSetSize ⟨none, some "updated_email@example.com", none, none⟩ →
      (∀ d, findOne [sampleDoc] oidA = some d →
        findOne (update_student oidA emailOnlyPayload [sampleDoc]).2 oidA
          = some (applySet d ⟨none, some "updated_email@example.com", none, none⟩) ∧
        (responseModelOk (applySet d ⟨none, some "updated_email@example.com", none, none⟩)
            = true →
          (update_student oidA emailOnlyPayload [sampleDoc]).1
            = Response.ok (applySet d ⟨none, some "updated_email@example.com", none, none⟩)) ∧
        (responseModelOk (applySet d ⟨none, some "updated_email@example.com", none, none⟩)
            = false →
          (update_student oidA emailOnlyPayload [sampleDoc]).1 = Response.serverError)) ∧
      (findOne [sampleDoc] oidA = none →
        update_student oidA emailOnlyPayload [sampleDoc]
          = (Response.notFound oidA, [sampleDoc]))) :=
  C7_amended [sampleDoc] oidA emailOnlyPayload
    ⟨none, some "updated_email@example.com", none, none⟩ rfl

end MongoFastApi
